import Mathlib

/-
Shallow embedding of `src/src/katcp_serial.py` (class `SerialClient`).

Conventions of the embedding:
- Python's mutable `self` is passed and returned explicitly (`SerialClient`).
- The Python 2 dict `self._nb_requests` is modelled as an association list
  `List (String × FpgaAsyncRequest)`; the list order is the dict's iteration
  order (which Python 2 leaves unspecified, so arbitrary list orders are
  realizable states).  Insertion appends at the end.
- Raised exceptions are modelled with `Except`/explicit error components
  (`PyError`); an `AssertionError`'s message text is not modelled.
- Externally visible side effects (the external client's `request` send,
  `logger.info`, user-callback invocations) are returned as an `Event` trace.
- `katcp.Message` is modelled by its name and string-argument list; `msg.copy()`
  is the identity in this value-semantics model.
-/

namespace Corr

/-- KATCP message: a name and an ordered list of string arguments
(`arguments[0]` is the status code on replies). -/
structure Message where
  name : String
  arguments : List String
deriving DecidableEq, Repr

/-- Status string of a successful reply (katcp `Message.OK`, i.e. `"ok"`;
the spec records that `arguments[0]` is `"ok"` on success). -/
def Message.OK : String := "ok"

/-- Request-message construction (`Message.request(name, *args)`). -/
def Message.request (name : String) (args : List String) : Message :=
  { name := name, arguments := args }

/-- Value copy of a message (`msg.copy()`); identity under value semantics. -/
def Message.copy (m : Message) : Message := m

/-- Python exceptions raised by the embedded code.  `requestFailed` models the
`RuntimeError` raised by `_request` (line 140), carrying the components that
the source formats into its message: the request name, the original request
and the reply. -/
inductive PyError where
  | runtimeError (msg : String)
  | indexError
  | attributeError
  | assertionError
  | requestFailed (name : String) (request : Message) (reply : Message)
deriving DecidableEq, Repr

/-- Externally visible side effects of the correlator, in order. -/
inductive Event where
  | logInfo (request : String) (request_id : String)
  | sendReq (msg : Message) (user_data : String)
  | cbCall (cb : Nat) (msg : Message)
deriving DecidableEq, Repr

/-- Modelled from the spec: class `FpgaAsyncRequest` is code of this repository
that is not under `src/` (only its caller `katcp_serial.py` is).  Per the spec's
data model, a pending request stores the host, the protocol verb
(`requestName`, field `request` in the source's attribute accesses), its
`request_id`, optional inform/reply callbacks (modelled by opaque identifiers),
the submit timestamp `time_tx` set at creation, the accumulated informs and an
optional reply (absent until received). -/
structure FpgaAsyncRequest where
  host : String
  request : String
  request_id : String
  inform_cb : Option Nat
  reply_cb : Option Nat
  time_tx : Nat
  reply : Option Message
  informs : List Message
deriving DecidableEq, Repr

/-- Modelled from the spec: `FpgaAsyncRequest.got_reply` (invoked at line 92,
defined outside `src/`) records the reply on the entry and invokes its reply
callback, when present, with the delivered message. -/
def FpgaAsyncRequest.got_reply (r : FpgaAsyncRequest) (m : Message) :
    FpgaAsyncRequest × List Event :=
  ({ r with reply := some m },
   match r.reply_cb with
   | some cb => [Event.cbCall cb m]
   | none => [])

/-- Modelled from the spec: `FpgaAsyncRequest.got_inform` (invoked at line 100,
defined outside `src/`) appends the inform to the entry's accumulated sequence
and invokes its inform callback, when present, with the delivered message. -/
def FpgaAsyncRequest.got_inform (r : FpgaAsyncRequest) (m : Message) :
    FpgaAsyncRequest × List Event :=
  ({ r with informs := r.informs ++ [m] },
   match r.inform_cb with
   | some cb => [Event.cbCall cb m]
   | none => [])

/-- State of a `SerialClient` relevant to the async request table
(`__init__`, lines 46-49): the host, the id counter `_nb_request_id`, the
pending-request dict `_nb_requests` and the capacity `_nb_max_requests`.
Note the source creates no lock of any kind here. -/
structure SerialClient where
  host : String
  nb_request_id : Nat
  nb_requests : List (String × FpgaAsyncRequest)
  nb_max_requests : Nat
deriving DecidableEq, Repr

/-- Freshly constructed client (`__init__`): counter 0, empty table, capacity 10. -/
def mkSerialClient (host : String) : SerialClient :=
  { host := host, nb_request_id := 0, nb_requests := [], nb_max_requests := 10 }

/-- Dict lookup (`d[k]` / `d.get`): first binding of `k` in iteration order. -/
def dictFind : List (String × FpgaAsyncRequest) → String → Option FpgaAsyncRequest
  | [], _ => none
  | kv :: rest, k => if kv.1 = k then some kv.2 else dictFind rest k

/-- Dict `pop` (`d.pop(k)` guarded by `try`): removes the first binding of `k`,
returning it (or `none`) together with the remaining dict. -/
def dictPop : List (String × FpgaAsyncRequest) → String →
    Option FpgaAsyncRequest × List (String × FpgaAsyncRequest)
  | [], _ => (none, [])
  | kv :: rest, k =>
    if kv.1 = k then (some kv.2, rest)
    else
      let pr := dictPop rest k
      (pr.1, kv :: pr.2)

/-- In-place mutation of the entry stored under `k` (`d[k].got_reply(...)`):
every binding of `k` is replaced by `v`, other bindings and order unchanged. -/
def dictSet (d : List (String × FpgaAsyncRequest)) (k : String)
    (v : FpgaAsyncRequest) : List (String × FpgaAsyncRequest) :=
  d.map (fun kv => if kv.1 = k then (k, v) else kv)

/-- `_nb_get_request_by_id` (lines 54-58): dict lookup, `None` on `KeyError`. -/
def SerialClient.nb_get_request_by_id (c : SerialClient) (request_id : String) :
    Option FpgaAsyncRequest :=
  dictFind c.nb_requests request_id

/-- `_nb_pop_request_by_id` (lines 60-64): dict pop, `None` on `KeyError`. -/
def SerialClient.nb_pop_request_by_id (c : SerialClient) (request_id : String) :
    Option FpgaAsyncRequest × SerialClient :=
  let pr := dictPop c.nb_requests request_id
  (pr.1, { c with nb_requests := pr.2 })

/-- Linear scan of lines 68-70: starting from the candidate `req`, replace it by
any later entry whose `time_tx` is strictly smaller. -/
def scanOldest (req : FpgaAsyncRequest) :
    List (String × FpgaAsyncRequest) → FpgaAsyncRequest
  | [] => req
  | kv :: rest => scanOldest (if kv.2.time_tx < req.time_tx then kv.2 else req) rest

/-- `_nb_pop_oldest_request` (lines 66-71): `self._nb_requests.keys()[0]` raises
`IndexError` on an empty dict; otherwise the scan picks the first entry in
iteration order among those with minimal `time_tx` (strict `<` comparison), and
the entry is popped by its stored `request_id`. -/
def SerialClient.nb_pop_oldest_request (c : SerialClient) :
    Except PyError (Option FpgaAsyncRequest × SerialClient) :=
  match c.nb_requests with
  | [] => .error PyError.indexError
  | kv :: _ =>
    let req := scanOldest kv.2 c.nb_requests
    .ok (c.nb_pop_request_by_id req.request_id)

/-- `_nb_get_request_result` (lines 73-75): looks the entry up with
`_nb_get_request_by_id` (which returns `None` when absent) and then
unconditionally reads `req.reply, req.informs` — on an absent id this
dereferences `None` and raises `AttributeError`. -/
def SerialClient.nb_get_request_result (c : SerialClient) (request_id : String) :
    Except PyError (Option Message × List Message) :=
  match c.nb_get_request_by_id request_id with
  | none => .error PyError.attributeError
  | some req => .ok (req.reply, req.informs)

/-- `_nb_add_request` (lines 77-80): raises `RuntimeError` if the id is already
a key; otherwise stores a fresh `FpgaAsyncRequest` under the id.  The entry's
creation-time fields follow the spec's data model (creation timestamp `now`,
no reply, no informs). -/
def SerialClient.nb_add_request (c : SerialClient) (request_name request_id : String)
    (inform_cb reply_cb : Option Nat) (now : Nat) : Except PyError SerialClient :=
  if request_id ∈ c.nb_requests.map Prod.fst then
    .error (PyError.runtimeError
      ("Trying to add request with id(" ++ request_id ++ ") but it already exists."))
  else
    .ok { c with nb_requests := c.nb_requests ++
      [(request_id,
        { host := c.host, request := request_name, request_id := request_id,
          inform_cb := inform_cb, reply_cb := reply_cb, time_tx := now,
          reply := none, informs := [] })] }

/-- `_nb_get_next_request_id` (lines 82-84): increments the counter and returns
it, stringified. -/
def SerialClient.nb_get_next_request_id (c : SerialClient) : String × SerialClient :=
  let c := { c with nb_request_id := c.nb_request_id + 1 }
  (toString c.nb_request_id, c)

/-- `_nb_replycb` (lines 86-92): joins the userdata into the correlation id,
raises `RuntimeError` when no such request is stored (leaving the state
untouched — the check precedes any mutation), and otherwise delivers a copy of
the message to the entry's `got_reply`. -/
def SerialClient.nb_replycb (c : SerialClient) (msg : Message)
    (userdata : List String) : SerialClient × List Event × Except PyError Unit :=
  let request_id := String.join userdata
  match dictFind c.nb_requests request_id with
  | none =>
    (c, [], .error (PyError.runtimeError
      ("Recieved reply for request_id(" ++ request_id ++ "), but no such stored request.")))
  | some req =>
    let re := req.got_reply msg.copy
    ({ c with nb_requests := dictSet c.nb_requests request_id re.1 }, re.2, .ok ())

/-- `_nb_informcb` (lines 94-100): same lookup discipline as `_nb_replycb`,
delivering to `got_inform`. -/
def SerialClient.nb_informcb (c : SerialClient) (msg : Message)
    (userdata : List String) : SerialClient × List Event × Except PyError Unit :=
  let request_id := String.join userdata
  match dictFind c.nb_requests request_id with
  | none =>
    (c, [], .error (PyError.runtimeError
      ("Recieved inform for request_id(" ++ request_id ++ "), but no such stored request.")))
  | some req =>
    let re := req.got_inform msg.copy
    ({ c with nb_requests := dictSet c.nb_requests request_id re.1 }, re.2, .ok ())

/-- Handle returned by `_nb_request` (line 117): the dict
`{'host': ..., 'request': ..., 'id': ...}`. -/
structure RequestHandle where
  host : String
  request : String
  id : String
deriving DecidableEq, Repr

/-- `_nb_request` (lines 102-117).  When the table is at capacity the oldest
entry is popped and the eviction is logged (`logger.info`; the duplicate
`print` is folded into the same event); `oldreq.request` on a `None` pop result
would raise `AttributeError`.  Then a new id is generated, the request is sent
through the external client tagged with the id as `user_data`, the new entry is
added, and the handle is returned.  The creation timestamp `now` is passed
explicitly (the source's clock is external). -/
def SerialClient.nb_request (c : SerialClient) (request : String)
    (inform_cb reply_cb : Option Nat) (args : List String) (now : Nat) :
    Except PyError (RequestHandle × SerialClient × List Event) :=
  match (if c.nb_requests.length = c.nb_max_requests then
          match c.nb_pop_oldest_request with
          | .error e => .error e
          | .ok (none, _) => .error PyError.attributeError
          | .ok (some oldreq, c1) =>
            .ok ([Event.logInfo oldreq.request oldreq.request_id], c1)
         else .ok ([], c) : Except PyError (List Event × SerialClient)) with
  | .error e => .error e
  | .ok (evs, c1) =>
    let p := c1.nb_get_next_request_id
    let request_id := p.1
    let c2 := p.2
    let evs := evs ++ [Event.sendReq (Message.request request args) request_id]
    match c2.nb_add_request request request_id inform_cb reply_cb now with
    | .error e => .error e
    | .ok c3 => .ok ({ host := c3.host, request := request, id := request_id }, c3, evs)

/-- Well-formedness of the request table: keys are distinct and every entry is
stored under its own `request_id` (maintained by construction, since
`_nb_add_request` keys the dict by the entry's id). -/
def SerialClient.WFtable (c : SerialClient) : Prop :=
  (c.nb_requests.map Prod.fst).Nodup ∧
  ∀ kv ∈ c.nb_requests, kv.2.request_id = kv.1

/-- One call of the non-blocking submit path, for sequencing (`_nb_request`'s
parameters). -/
structure SubmitCall where
  request : String
  inform_cb : Option Nat
  reply_cb : Option Nat
  args : List String
  now : Nat

/-- Sequential execution of a list of `_nb_request` calls, threading the client
state and collecting handles and events; the first raised exception aborts. -/
def submitSeq (c : SerialClient) :
    List SubmitCall → Except PyError (List RequestHandle × SerialClient × List Event)
  | [] => .ok ([], c, [])
  | call :: rest =>
    match c.nb_request call.request call.inform_cb call.reply_cb call.args call.now with
    | .error e => .error e
    | .ok (h, c1, evs) =>
      match submitSeq c1 rest with
      | .error e => .error e
      | .ok (hs, c2, evs1) => .ok (h :: hs, c2, evs ++ evs1)

/-- Blocking request façade `_request` (lines 122-142).  The external
`blocking_request` collaborator is a parameter: its returned (reply, informs)
pair.  `reply.arguments[0]` raises `IndexError` on an empty argument list; a
non-`OK` status raises the request-failed `RuntimeError` (carrying the request
name, the original request and the reply); otherwise the pair is returned. -/
def request_facade (name : String) (args : List String)
    (blocking : Message × List Message) : Except PyError (Message × List Message) :=
  let request := Message.request name args
  let reply := blocking.1
  let informs := blocking.2
  match reply.arguments with
  | [] => .error PyError.indexError
  | s :: _ =>
    if s ≠ Message.OK then .error (PyError.requestFailed request.name request reply)
    else .ok (reply, informs)

/-- `ping` (lines 144-151): issues a blocking `watchdog` request and compares
the reply status to `'ok'`. -/
def ping (blocking : Message × List Message) : Except PyError Bool :=
  match request_facade "watchdog" [] blocking with
  | .error e => .error e
  | .ok (reply, _) =>
    match reply.arguments with
    | [] => .error PyError.indexError
    | s :: _ => .ok (s == "ok")

/-
Device control operations (lines 153-213).  These issue blocking requests via
`self._request`; each issued request is recorded as `(name, integer arguments)`
(katcp stringifies the arguments in the external library).  The device's
replies are the external collaborator's; a non-OK reply would abort the
sequence through `_request` — the traces below are the requests issued when
every reply succeeds, which is all the device-ops claims quantify over.
-/

/-- Issued device request: request name and integer arguments. -/
abbrev DeviceReq := String × List Int

/-- Python value passed as a digital pin state: an int or a bool (Python's
`==` identifies `True` with 1 and `False` with 0). -/
inductive PyVal where
  | int (n : Int)
  | bool (b : Bool)
deriving DecidableEq, Repr

/-- Coercion `int(state)`. -/
def PyVal.toInt : PyVal → Int
  | .int n => n
  | .bool b => if b then 1 else 0

/-- Python equality of a value against an integer (`state == m`). -/
def PyVal.pyEqInt (v : PyVal) (m : Int) : Bool := v.toInt == m

/-- `setd` (lines 153-157): `(state in [0,1]) or (state in [True,False])`
membership is by Python `==`; on success exactly one `setd` request is issued
with the coerced integers, otherwise `RuntimeError('Invalid state.')` is
raised before any request. -/
def setd (pin : Int) (state : PyVal) : Except PyError (List DeviceReq) :=
  if (state.pyEqInt 0 || state.pyEqInt 1) ||
     (state.pyEqInt 1 || state.pyEqInt 0) then
    .ok [("setd", [pin, state.toInt])]
  else
    .error (PyError.runtimeError "Invalid state.")

/-- Sequential execution of a list of `self.setd(pin, state)` calls,
concatenating the issued requests; the first raised exception aborts. -/
def runSetds : List (Int × PyVal) → Except PyError (List DeviceReq)
  | [] => .ok []
  | ps :: rest =>
    match setd ps.1 ps.2 with
    | .error e => .error e
    | .ok tr =>
      match runSetds rest with
      | .error e => .error e
      | .ok tr1 => .ok (tr ++ tr1)

/-- `seta` (lines 159-164): asserts `val in range(255)` (i.e. 0 ≤ val ≤ 254 —
note the documented PWM range is 0-255) and `pin in [3,5,6,9,10,11]`, in that
order, then issues exactly one `seta` request. -/
def seta (pin val : Int) : Except PyError (List DeviceReq) :=
  if 0 ≤ val ∧ val < 255 then
    if pin = 3 ∨ pin = 5 ∨ pin = 6 ∨ pin = 9 ∨ pin = 10 ∨ pin = 11 then
      .ok [("seta", [pin, val])]
    else .error PyError.assertionError
  else .error PyError.assertionError

/-- Pin map `kat_pins` (lines 176-188). -/
def kat_pins : List (String × Int) :=
  [("switch1_pin1", 13), ("switch1_pin2", 12), ("switch1_pin3", 19),
   ("switch1_pin4", 18), ("switch2_pin1", 17), ("switch2_pin2", 16),
   ("switch2_pin3", 15), ("switch2_pin4", 14), ("atten1_le_pin", 5),
   ("atten2_le_pin", 6), ("atten3_le_pin", 7), ("atten_clk_pin", 3),
   ("atten_data_pin", 4)]

/-- Pin-map lookup (`self.kat_pins[k]`; every use site passes a present key). -/
def pinOf (m : List (String × Int)) (k : String) : Int :=
  (m.lookup k).getD 0

/-- Bit-banging loop of lines 200-203: `for bit in range(5,-1,-1)`, writing
`(db2 >> bit) & 1` on the data pin then pulsing the clock high and low. -/
def atten_bit_program (db2 : Nat) : List (Int × PyVal) :=
  ([5, 4, 3, 2, 1, 0] : List Nat).flatMap (fun bit =>
    [(pinOf kat_pins "atten_data_pin", PyVal.int (Int.ofNat ((db2 >>> bit) &&& 1))),
     (pinOf kat_pins "atten_clk_pin", PyVal.int 1),
     (pinOf kat_pins "atten_clk_pin", PyVal.int 0)])

/-- `set_atten_db` (lines 191-213): asserts `db in range(0,32)` then
`atten in range(0,4)`; doubles `db`; drives the three latch-enable pins and the
clock low; emits the six bits MSB-first with a clock pulse each; then asserts
the selected latch pin (attenuator 0 asserts all three). -/
def set_atten_db (atten : Nat) (db : Nat) : Except PyError (List DeviceReq) :=
  if db < 32 then
    if atten < 4 then
      runSetds
        ([(pinOf kat_pins "atten1_le_pin", PyVal.int 0),
          (pinOf kat_pins "atten2_le_pin", PyVal.int 0),
          (pinOf kat_pins "atten3_le_pin", PyVal.int 0),
          (pinOf kat_pins "atten_clk_pin", PyVal.int 0)]
         ++ atten_bit_program (db * 2)
         ++ (if atten = 1 then [(pinOf kat_pins "atten1_le_pin", PyVal.int 1)]
             else if atten = 2 then [(pinOf kat_pins "atten2_le_pin", PyVal.int 1)]
             else if atten = 3 then [(pinOf kat_pins "atten3_le_pin", PyVal.int 1)]
             else if atten = 0 then
               [(pinOf kat_pins "atten1_le_pin", PyVal.int 1),
                (pinOf kat_pins "atten2_le_pin", PyVal.int 1),
                (pinOf kat_pins "atten3_le_pin", PyVal.int 1)]
             else []))
    else .error PyError.assertionError
  else .error PyError.assertionError

/-
Interleaving model for the concurrency claim.  `_nb_get_next_request_id`
executes `self._nb_request_id += 1; return str(self._nb_request_id)` with no
lock (`__init__` creates none).  At CPython bytecode granularity the increment
is a load, an add and a store, and the `return` loads the counter again; a
thread switch may occur between any two of these.  Two threads each run the
three micro-steps below; a schedule says which thread steps next.
-/

/-- Shared counter plus the two threads' program counters, loaded locals and
returned id strings. -/
structure RaceState where
  counter : Nat
  pc1 : Nat
  pc2 : Nat
  acc1 : Nat
  acc2 : Nat
  ret1 : Option String
  ret2 : Option String
deriving DecidableEq, Repr

/-- Initial state: counter 0 (fresh client), both threads at their first step. -/
def raceInit : RaceState :=
  { counter := 0, pc1 := 0, pc2 := 0, acc1 := 0, acc2 := 0, ret1 := none, ret2 := none }

/-- One micro-step of thread 1 (`t = true`) or thread 2 (`t = false`):
step 0 loads the shared counter, step 1 stores the incremented local back,
step 2 re-reads the counter and returns it stringified. -/
def raceStep (t : Bool) (s : RaceState) : RaceState :=
  if t then
    match s.pc1 with
    | 0 => { s with acc1 := s.counter, pc1 := 1 }
    | 1 => { s with counter := s.acc1 + 1, pc1 := 2 }
    | 2 => { s with ret1 := some (toString s.counter), pc1 := 3 }
    | _ => s
  else
    match s.pc2 with
    | 0 => { s with acc2 := s.counter, pc2 := 1 }
    | 1 => { s with counter := s.acc2 + 1, pc2 := 2 }
    | 2 => { s with ret2 := some (toString s.counter), pc2 := 3 }
    | _ => s

/-- Run a schedule of micro-steps from a state. -/
def raceRun (sched : List Bool) (s : RaceState) : RaceState :=
  sched.foldl (fun s t => raceStep t s) s

/-
Concrete sample states used by witnesses and counterexamples.
-/

/-- Ids "1".."j" in insertion order (the request ids generated by the counter). -/
def idsUpTo (j : Nat) : List String :=
  (List.range j).map (fun i => toString (i + 1))

/-- Sample pending entry with a recorded reply and one accumulated inform. -/
def sampleEntry : FpgaAsyncRequest :=
  { host := "h", request := "getd", request_id := "1", inform_cb := some 0,
    reply_cb := some 1, time_tx := 3,
    reply := some { name := "getd", arguments := ["ok", "1"] },
    informs := [{ name := "getd", arguments := ["partial"] }] }

/-- Sample client holding `sampleEntry` under id "1". -/
def sampleClient : SerialClient :=
  { host := "h", nb_request_id := 1, nb_requests := [("1", sampleEntry)],
    nb_max_requests := 10 }

/-- Client whose two pending entries share the submit time 5, stored in an
iteration order (realizable for a Python 2 dict, whose iteration order is
unspecified) where the higher id "2" comes first. -/
def tieClient : SerialClient :=
  { host := "h", nb_request_id := 2,
    nb_requests :=
      [("2", { host := "h", request := "r2", request_id := "2", inform_cb := none,
               reply_cb := none, time_tx := 5, reply := none, informs := [] }),
       ("1", { host := "h", request := "r1", request_id := "1", inform_cb := none,
               reply_cb := none, time_tx := 5, reply := none, informs := [] })],
    nb_max_requests := 10 }

/-- Client at capacity: ten pending entries with ids "1".."10" and submit
times 0..9 (entry "1" is the oldest). -/
def fullClient : SerialClient :=
  { host := "h", nb_request_id := 10,
    nb_requests := (List.range 10).map (fun i =>
      (toString (i + 1),
       { host := "h", request := "ping", request_id := toString (i + 1),
         inform_cb := none, reply_cb := none, time_tx := i,
         reply := none, informs := [] })),
    nb_max_requests := 10 }

/-
Helper lemmas on the dict model and the oldest-entry scan.
-/

theorem dictFind_eq_none_iff (d : List (String × FpgaAsyncRequest)) (k : String) :
    dictFind d k = none ↔ k ∉ d.map Prod.fst := by
  induction d with
  | nil => simp [dictFind]
  | cons kv rest ih =>
    by_cases h : kv.1 = k
    · simp [dictFind, h]
    · simp [dictFind, h, ih, Ne.symm h]

theorem dictFind_mem {d : List (String × FpgaAsyncRequest)} {k : String}
    {v : FpgaAsyncRequest} (h : dictFind d k = some v) : (k, v) ∈ d := by
  induction d with
  | nil => simp [dictFind] at h
  | cons kv rest ih =>
    by_cases hk : kv.1 = k
    · simp [dictFind, hk] at h
      subst hk h
      simp
    · simp [dictFind, hk] at h
      exact List.mem_cons_of_mem _ (ih h)

theorem dictFind_of_mem {d : List (String × FpgaAsyncRequest)} {k : String}
    {v : FpgaAsyncRequest} (hnd : (d.map Prod.fst).Nodup) (h : (k, v) ∈ d) :
    dictFind d k = some v := by
  induction d with
  | nil => simp at h
  | cons kv rest ih =>
    simp only [List.map_cons, List.nodup_cons] at hnd
    rcases List.mem_cons.mp h with h1 | h1
    · subst h1
      simp [dictFind]
    · have hk : kv.1 ≠ k := by
        intro he
        exact hnd.1 (he ▸ List.mem_map_of_mem Prod.fst h1)
      simp [dictFind, hk]
      exact ih hnd.2 h1

theorem dictPop_fst (d : List (String × FpgaAsyncRequest)) (k : String) :
    (dictPop d k).1 = dictFind d k := by
  induction d with
  | nil => simp [dictPop, dictFind]
  | cons kv rest ih =>
    by_cases h : kv.1 = k
    · simp [dictPop, dictFind, h]
    · simp [dictPop, dictFind, h, ih]

theorem dictPop_sublist (d : List (String × FpgaAsyncRequest)) (k : String) :
    (dictPop d k).2.Sublist d := by
  induction d with
  | nil => simp [dictPop]
  | cons kv rest ih =>
    by_cases h : kv.1 = k
    · simp only [dictPop, if_pos h]
      exact List.sublist_cons_self kv rest
    · simpa [dictPop, h] using List.Sublist.cons₂ kv ih

theorem dictPop_find_self (d : List (String × FpgaAsyncRequest)) (k : String)
    (hnd : (d.map Prod.fst).Nodup) : dictFind (dictPop d k).2 k = none := by
  induction d with
  | nil => simp [dictPop, dictFind]
  | cons kv rest ih =>
    simp only [List.map_cons, List.nodup_cons] at hnd
    by_cases h : kv.1 = k
    · subst h
      simp only [dictPop, if_pos rfl]
      rw [dictFind_eq_none_iff]
      exact hnd.1
    · simp [dictPop, dictFind, h, ih hnd.2]

theorem dictPop_find_other (d : List (String × FpgaAsyncRequest)) (k k' : String)
    (h : k' ≠ k) : dictFind (dictPop d k).2 k' = dictFind d k' := by
  induction d with
  | nil => simp [dictPop]
  | cons kv rest ih =>
    by_cases hk : kv.1 = k
    · have hne : k ≠ k' := Ne.symm h
      simp [dictPop, dictFind, hk, hne]
    · by_cases hk' : kv.1 = k'
      · simp [dictPop, dictFind, hk, hk', h]
      · simp [dictPop, dictFind, hk, hk', ih]

theorem dictFind_append (d1 d2 : List (String × FpgaAsyncRequest)) (k : String) :
    dictFind (d1 ++ d2) k =
      (match dictFind d1 k with
       | some v => some v
       | none => dictFind d2 k) := by
  induction d1 with
  | nil => simp [dictFind]
  | cons kv rest ih =>
    by_cases h : kv.1 = k
    · simp [dictFind, h]
    · simp [dictFind, h, ih]

theorem dictSet_cons (kv : String × FpgaAsyncRequest)
    (rest : List (String × FpgaAsyncRequest)) (k : String) (v : FpgaAsyncRequest) :
    dictSet (kv :: rest) k v =
      (if kv.1 = k then (k, v) else kv) :: dictSet rest k v := by
  simp [dictSet]

theorem dictSet_find_self {d : List (String × FpgaAsyncRequest)} {k : String}
    (v : FpgaAsyncRequest) (h : k ∈ d.map Prod.fst) :
    dictFind (dictSet d k v) k = some v := by
  induction d with
  | nil => simp at h
  | cons kv rest ih =>
    rw [dictSet_cons]
    by_cases hk : kv.1 = k
    · simp [dictFind, hk]
    · simp only [List.map_cons, List.mem_cons] at h
      rcases h with h | h
      · exact absurd h.symm hk
      · simp [dictFind, hk]
        exact ih h

theorem dictSet_find_other {d : List (String × FpgaAsyncRequest)} {k k' : String}
    (v : FpgaAsyncRequest) (h : k' ≠ k) :
    dictFind (dictSet d k v) k' = dictFind d k' := by
  induction d with
  | nil => simp [dictSet, dictFind]
  | cons kv rest ih =>
    rw [dictSet_cons]
    by_cases hk : kv.1 = k
    · have hne : k ≠ k' := Ne.symm h
      simp [dictFind, hk, hne, ih]
    · by_cases hk' : kv.1 = k'
      · simp [dictFind, hk, hk', h]
      · simp [dictFind, hk, hk', ih]

theorem scanOldest_mem (req : FpgaAsyncRequest)
    (l : List (String × FpgaAsyncRequest)) :
    scanOldest req l = req ∨ scanOldest req l ∈ l.map Prod.snd := by
  induction l generalizing req with
  | nil => simp [scanOldest]
  | cons kv rest ih =>
    simp only [scanOldest]
    rcases ih (if kv.2.time_tx < req.time_tx then kv.2 else req) with h | h
    · rw [h]
      by_cases hc : kv.2.time_tx < req.time_tx
      · simp [hc]
      · simp [hc]
    · right
      exact List.mem_cons_of_mem _ h

theorem scanOldest_le_init (req : FpgaAsyncRequest)
    (l : List (String × FpgaAsyncRequest)) :
    (scanOldest req l).time_tx ≤ req.time_tx := by
  induction l generalizing req with
  | nil => simp [scanOldest]
  | cons kv rest ih =>
    simp only [scanOldest]
    by_cases hc : kv.2.time_tx < req.time_tx
    · calc (scanOldest (if kv.2.time_tx < req.time_tx then kv.2 else req) rest).time_tx
          ≤ _ := ih _
        _ ≤ req.time_tx := by
            simp [hc]
            omega
    · simpa [hc] using ih req

theorem scanOldest_le (req : FpgaAsyncRequest)
    (l : List (String × FpgaAsyncRequest)) :
    ∀ v ∈ l.map Prod.snd, (scanOldest req l).time_tx ≤ v.time_tx := by
  induction l generalizing req with
  | nil => simp
  | cons kv rest ih =>
    intro v hv
    simp only [List.map_cons, List.mem_cons] at hv
    rcases hv with hv | hv
    · subst hv
      simp only [scanOldest]
      by_cases hc : kv.2.time_tx < req.time_tx
      · simpa [hc] using scanOldest_le_init kv.2 rest
      · have h1 : (scanOldest (if kv.2.time_tx < req.time_tx then kv.2 else req)
            rest).time_tx ≤ req.time_tx := by
          simpa [hc] using scanOldest_le_init req rest
        omega
    · simpa [scanOldest] using ih _ v hv

/-
Claim theorems.
-/

/-- Reduction of `_nb_pop_oldest_request` on a nonempty table: the scan starts
from the first entry in iteration order and the winner is popped by its stored
request id. -/
theorem nb_pop_oldest_request_eq (c : SerialClient) (kv : String × FpgaAsyncRequest)
    (tl : List (String × FpgaAsyncRequest)) (hd : c.nb_requests = kv :: tl) :
    c.nb_pop_oldest_request =
      .ok (c.nb_pop_request_by_id (scanOldest kv.2 (kv :: tl)).request_id) := by
  unfold SerialClient.nb_pop_oldest_request
  rw [hd]

/-- C6: through the blocking façade `_request`, a reply whose status argument
`arguments[0]` is not `OK` raises the request-failure error carrying the
request name, the original request and the reply; an `OK` status returns the
(reply, informs) pair.  Instantiating the request name with "watchdog" gives
the `request("watchdog")` behavior of the claim. -/
theorem request_facade_status (name : String) (args : List String)
    (reply : Message) (informs : List Message) (s : String) (rest : List String)
    (hargs : reply.arguments = s :: rest) :
    (s ≠ Message.OK →
      request_facade name args (reply, informs) =
        .error (PyError.requestFailed name (Message.request name args) reply)) ∧
    (s = Message.OK →
      request_facade name args (reply, informs) = .ok (reply, informs)) := by
  constructor
  · intro hs
    simp [request_facade, hargs, hs, Message.request]
  · intro hs
    simp [request_facade, hargs, hs]

/-- Witness for C6: a `watchdog` request whose mock reply carries status
"fail" raises the request-failure error holding the request name. -/
theorem request_facade_status_witness :
    (Message.mk "watchdog" ["fail"]).arguments = "fail" :: [] ∧
    "fail" ≠ Message.OK ∧
    request_facade "watchdog" [] (Message.mk "watchdog" ["fail"], []) =
      .error (PyError.requestFailed "watchdog" (Message.request "watchdog" [])
        (Message.mk "watchdog" ["fail"])) :=
  ⟨rfl, by decide,
   (request_facade_status "watchdog" [] (Message.mk "watchdog" ["fail"]) []
     "fail" [] rfl).1 (by decide)⟩

/-- C8: `setd(pin, state)` issues exactly one `setd` request with pin and
state coerced to integers whenever the state's integer coercion is 0 or 1
(booleans coerce to 0/1 under Python equality), and raises the
`Invalid state.` RuntimeError — before issuing any request — otherwise;
in particular `setd(3, 1)` issues one request with arguments 3 and 1 and
`setd(3, 2)` raises. -/
theorem setd_spec (pin : Int) (state : PyVal) :
    (state.toInt = 0 ∨ state.toInt = 1 →
      setd pin state = .ok [("setd", [pin, state.toInt])]) ∧
    (state.toInt ≠ 0 ∧ state.toInt ≠ 1 →
      setd pin state = .error (PyError.runtimeError "Invalid state.")) ∧
    setd 3 (PyVal.int 1) = .ok [("setd", [3, 1])] ∧
    setd 3 (PyVal.int 2) = .error (PyError.runtimeError "Invalid state.") := by
  refine ⟨?_, ?_, rfl, rfl⟩
  · intro h
    rcases h with h | h <;> simp [setd, PyVal.pyEqInt, h]
  · intro h
    simp [setd, PyVal.pyEqInt, beq_iff_eq, h.1, h.2]

/-- Witness for C8: `setd(3, 1)` with the valid-state hypothesis discharged. -/
theorem setd_spec_witness :
    ((PyVal.int 1).toInt = 0 ∨ (PyVal.int 1).toInt = 1) ∧
    setd 3 (PyVal.int 1) = .ok [("setd", [3, (PyVal.int 1).toInt])] :=
  ⟨Or.inr rfl, (setd_spec 3 (PyVal.int 1)).1 (Or.inr rfl)⟩

/-- C10: `seta(pin, val)` raises before issuing any request unless
`pin ∈ {3,5,6,9,10,11}` and `val ∈ {0,...,254}` (the value range accepted by
`val in range(255)`), and issues exactly one request when both hold; in
particular `val = 255` is rejected even though the docstring calls 0-255
valid. -/
theorem seta_spec (pin val : Int) :
    (0 ≤ val ∧ val < 255 →
      (pin = 3 ∨ pin = 5 ∨ pin = 6 ∨ pin = 9 ∨ pin = 10 ∨ pin = 11) →
      seta pin val = .ok [("seta", [pin, val])]) ∧
    (¬(0 ≤ val ∧ val < 255) → seta pin val = .error PyError.assertionError) ∧
    (0 ≤ val ∧ val < 255 →
      ¬(pin = 3 ∨ pin = 5 ∨ pin = 6 ∨ pin = 9 ∨ pin = 10 ∨ pin = 11) →
      seta pin val = .error PyError.assertionError) ∧
    seta pin 255 = .error PyError.assertionError := by
  refine ⟨?_, ?_, ?_, ?_⟩
  · intro hv hp
    simp [seta, hv, hp]
  · intro hv
    simp [seta, hv]
  · intro hv hp
    simp [seta, hv, hp]
  · simp [seta]

/-- Witness for C10: `seta(3, 254)` issues its single request, and `seta(3, 255)`
raises the assertion. -/
theorem seta_spec_witness :
    ((0 : Int) ≤ 254 ∧ (254 : Int) < 255) ∧
    ((3 : Int) = 3 ∨ (3 : Int) = 5 ∨ (3 : Int) = 6 ∨ (3 : Int) = 9 ∨
      (3 : Int) = 10 ∨ (3 : Int) = 11) ∧
    seta 3 254 = .ok [("seta", [3, 254])] ∧
    seta 3 255 = .error PyError.assertionError :=
  ⟨by decide, Or.inl rfl,
   (seta_spec 3 254).1 (by decide) (Or.inl rfl),
   (seta_spec 3 255).2.2.2⟩

/-- C9 counterexample: the source creates no lock (`__init__`, lines 46-49),
so the read-modify-write of `_nb_request_id += 1` and the re-read in
`return str(self._nb_request_id)` can interleave between two submitting
threads.  The schedule [T1 load, T2 load, T1 store, T1 return, T2 store,
T2 return] makes both threads return the request id "1" — a duplicate —
refuting that the table operations are internally synchronized so that
concurrent submitters never produce a duplicate id. -/
theorem race_duplicate_id :
    (raceRun [true, false, true, true, false, false] raceInit).ret1 = some "1" ∧
    (raceRun [true, false, true, true, false, false] raceInit).ret2 = some "1" :=
  ⟨rfl, rfl⟩

/-- C9 amended: the operations have no internal synchronization; id uniqueness
holds only when the two generations do not interleave.  Under either serialized
schedule (one thread's three micro-steps complete before the other starts)
the two returned ids are distinct ("1" and "2"). -/
theorem race_serialized_distinct :
    ((raceRun [true, true, true, false, false, false] raceInit).ret1 = some "1" ∧
     (raceRun [true, true, true, false, false, false] raceInit).ret2 = some "2") ∧
    ((raceRun [false, false, false, true, true, true] raceInit).ret1 = some "2" ∧
     (raceRun [false, false, false, true, true, true] raceInit).ret2 = some "1") :=
  ⟨⟨rfl, rfl⟩, ⟨rfl, rfl⟩⟩

/-- C3 counterexample: on an id absent from the table (here a fresh client and
id "1"), `_nb_get_request_result` does not return an absent/not-found result:
`_nb_get_request_by_id` yields `None` and line 75 dereferences it, raising
`AttributeError` — an unstructured failure. -/
theorem get_result_absent_raises :
    dictFind (mkSerialClient "h").nb_requests "1" = none ∧
    (mkSerialClient "h").nb_get_request_result "1" = .error PyError.attributeError :=
  ⟨rfl, rfl⟩

/-- C3 amended: `getResult` on a still-present entry returns its current reply
(possibly absent) and accumulated informs without removing or modifying the
entry (the operation reads the table only); on an absent id it raises
`AttributeError` by dereferencing `None` instead of returning absent/not-found. -/
theorem get_result_spec (c : SerialClient) (request_id : String) :
    (∀ req, c.nb_get_request_by_id request_id = some req →
      c.nb_get_request_result request_id = .ok (req.reply, req.informs)) ∧
    (c.nb_get_request_by_id request_id = none →
      c.nb_get_request_result request_id = .error PyError.attributeError) := by
  constructor
  · intro req h
    simp [SerialClient.nb_get_request_result, h]
  · intro h
    simp [SerialClient.nb_get_request_result, h]

/-- Witness for C3 amended: on `sampleClient`, reading the result of the
present id "1" returns its recorded reply and informs. -/
theorem get_result_spec_witness :
    sampleClient.nb_get_request_by_id "1" = some sampleEntry ∧
    sampleClient.nb_get_request_result "1" =
      .ok (sampleEntry.reply, sampleEntry.informs) :=
  ⟨rfl, (get_result_spec sampleClient "1").1 sampleEntry rfl⟩

/-- C2 counterexample: on `tieClient`, whose two entries both carry submit
time 5 but are iterated with id "2" first, `_nb_pop_oldest_request` removes
and returns the entry with request id "2", not the entry with the lowest
request id "1" — the strict `<` scan keeps the first entry in iteration order
on a tie, so the claimed lowest-requestId tie-break does not hold. -/
theorem pop_oldest_tie_not_lowest_id :
    tieClient.nb_pop_oldest_request =
      .ok (some { host := "h", request := "r2", request_id := "2", inform_cb := none,
                  reply_cb := none, time_tx := 5, reply := none, informs := [] },
           { host := "h", nb_request_id := 2,
             nb_requests :=
               [("1", { host := "h", request := "r1", request_id := "1",
                        inform_cb := none, reply_cb := none, time_tx := 5,
                        reply := none, informs := [] })],
             nb_max_requests := 10 }) ∧
    (∀ kv ∈ tieClient.nb_requests, kv.2.time_tx = 5) ∧
    "1" ∈ tieClient.nb_requests.map Prod.fst ∧
    "1" ≠ "2" :=
  ⟨rfl, by decide, by decide, by decide⟩

/-- C2 amended: `popOldest` fails (with `IndexError` from `keys()[0]`, not a
structured empty-table error) when the table is empty; otherwise it removes and
returns an entry whose `time_tx` is minimal over the table — which of several
minimal entries is taken depends on the dict's iteration order, with no
tie-break on request id — leaving every other entry in place. -/
theorem pop_oldest_spec (c : SerialClient) :
    (c.nb_requests = [] →
      c.nb_pop_oldest_request = .error PyError.indexError) ∧
    (c.WFtable → c.nb_requests ≠ [] →
      ∃ r c1, c.nb_pop_oldest_request = .ok (some r, c1) ∧
        r ∈ c.nb_requests.map Prod.snd ∧
        (∀ v ∈ c.nb_requests.map Prod.snd, r.time_tx ≤ v.time_tx) ∧
        dictFind c1.nb_requests r.request_id = none ∧
        (∀ k, k ≠ r.request_id →
          dictFind c1.nb_requests k = dictFind c.nb_requests k)) := by
  constructor
  · intro h
    unfold SerialClient.nb_pop_oldest_request
    rw [h]
  · intro hwf hne
    obtain ⟨kv, tl, hd⟩ := List.exists_cons_of_ne_nil hne
    have hkv : kv ∈ c.nb_requests := by
      rw [hd]
      exact List.mem_cons_self kv tl
    have hmem : scanOldest kv.2 (kv :: tl) ∈ c.nb_requests.map Prod.snd := by
      rcases scanOldest_mem kv.2 (kv :: tl) with h | h
      · rw [h]
        exact List.mem_map_of_mem Prod.snd hkv
      · rw [hd]
        exact h
    obtain ⟨p, hp, hpe⟩ := List.mem_map.mp hmem
    have hpid : (scanOldest kv.2 (kv :: tl)).request_id = p.1 := by
      rw [← hpe]
      exact hwf.2 p hp
    have hpair : (p.1, scanOldest kv.2 (kv :: tl)) ∈ c.nb_requests := by
      rw [← hpe]
      simpa using hp
    have hfind : dictFind c.nb_requests (scanOldest kv.2 (kv :: tl)).request_id =
        some (scanOldest kv.2 (kv :: tl)) := by
      rw [hpid]
      exact dictFind_of_mem hwf.1 hpair
    have hpop1 : (dictPop c.nb_requests (scanOldest kv.2 (kv :: tl)).request_id).1 =
        some (scanOldest kv.2 (kv :: tl)) := by
      rw [dictPop_fst, hfind]
    refine ⟨scanOldest kv.2 (kv :: tl),
      { c with nb_requests :=
          (dictPop c.nb_requests (scanOldest kv.2 (kv :: tl)).request_id).2 },
      ?_, hmem, ?_, ?_, ?_⟩
    · rw [nb_pop_oldest_request_eq c kv tl hd]
      simp only [SerialClient.nb_pop_request_by_id, hpop1]
    · intro v hv
      rw [hd] at hv
      exact scanOldest_le kv.2 (kv :: tl) v hv
    · exact dictPop_find_self c.nb_requests _ hwf.1
    · intro k hk
      exact dictPop_find_other c.nb_requests _ k hk

/-- Witness for C2 amended: popping the oldest entry of the nonempty,
well-formed `sampleClient`. -/
theorem pop_oldest_spec_witness :
    sampleClient.WFtable ∧ sampleClient.nb_requests ≠ [] ∧
    (∃ r c1, sampleClient.nb_pop_oldest_request = .ok (some r, c1) ∧
      r ∈ sampleClient.nb_requests.map Prod.snd ∧
      (∀ v ∈ sampleClient.nb_requests.map Prod.snd, r.time_tx ≤ v.time_tx) ∧
      dictFind c1.nb_requests r.request_id = none ∧
      (∀ k, k ≠ r.request_id →
        dictFind c1.nb_requests k = dictFind sampleClient.nb_requests k)) :=
  ⟨⟨by decide, by decide⟩, by decide,
   (pop_oldest_spec sampleClient).2 ⟨by decide, by decide⟩ (by decide)⟩

/-- C4: a reply or inform delivered for a correlation id not present in the
table raises `RuntimeError` and leaves the whole table (hence every other
entry) unmutated and invokes no callback; delivered for a present id, the
reply is recorded (resp. the inform appended) on exactly that entry — every
other entry reads back unchanged — and that entry's callback, when set, is
invoked with the (copied) message.  The recording behavior of
`FpgaAsyncRequest.got_reply`/`got_inform` is modelled from the spec, as the
class is not under `src/`. -/
theorem callback_dispatch_spec (c : SerialClient) (msg : Message)
    (userdata : List String) :
    (dictFind c.nb_requests (String.join userdata) = none →
      c.nb_replycb msg userdata = (c, [], .error (PyError.runtimeError
        ("Recieved reply for request_id(" ++ String.join userdata ++
         "), but no such stored request."))) ∧
      c.nb_informcb msg userdata = (c, [], .error (PyError.runtimeError
        ("Recieved inform for request_id(" ++ String.join userdata ++
         "), but no such stored request.")))) ∧
    (∀ req, dictFind c.nb_requests (String.join userdata) = some req →
      ((c.nb_replycb msg userdata).2.2 = .ok () ∧
       dictFind (c.nb_replycb msg userdata).1.nb_requests (String.join userdata) =
         some { req with reply := some msg.copy } ∧
       (∀ k, k ≠ String.join userdata →
         dictFind (c.nb_replycb msg userdata).1.nb_requests k =
           dictFind c.nb_requests k) ∧
       (c.nb_replycb msg userdata).2.1 =
         (match req.reply_cb with
          | some cb => [Event.cbCall cb msg.copy]
          | none => [])) ∧
      ((c.nb_informcb msg userdata).2.2 = .ok () ∧
       dictFind (c.nb_informcb msg userdata).1.nb_requests (String.join userdata) =
         some { req with informs := req.informs ++ [msg.copy] } ∧
       (∀ k, k ≠ String.join userdata →
         dictFind (c.nb_informcb msg userdata).1.nb_requests k =
           dictFind c.nb_requests k) ∧
       (c.nb_informcb msg userdata).2.1 =
         (match req.inform_cb with
          | some cb => [Event.cbCall cb msg.copy]
          | none => []))) := by
  constructor
  · intro h
    constructor
    · simp [SerialClient.nb_replycb, h]
    · simp [SerialClient.nb_informcb, h]
  · intro req h
    have hkey : String.join userdata ∈ c.nb_requests.map Prod.fst :=
      List.mem_map_of_mem Prod.fst (dictFind_mem h)
    constructor
    · refine ⟨?_, ?_, ?_, ?_⟩
      · simp [SerialClient.nb_replycb, h, FpgaAsyncRequest.got_reply]
      · simp only [SerialClient.nb_replycb, h, FpgaAsyncRequest.got_reply]
        exact dictSet_find_self _ hkey
      · intro k hk
        simp only [SerialClient.nb_replycb, h, FpgaAsyncRequest.got_reply]
        exact dictSet_find_other _ hk
      · simp [SerialClient.nb_replycb, h, FpgaAsyncRequest.got_reply]
    · refine ⟨?_, ?_, ?_, ?_⟩
      · simp [SerialClient.nb_informcb, h, FpgaAsyncRequest.got_inform]
      · simp only [SerialClient.nb_informcb, h, FpgaAsyncRequest.got_inform]
        exact dictSet_find_self _ hkey
      · intro k hk
        simp only [SerialClient.nb_informcb, h, FpgaAsyncRequest.got_inform]
        exact dictSet_find_other _ hk
      · simp [SerialClient.nb_informcb, h, FpgaAsyncRequest.got_inform]

/-- Witness for C4: delivering a reply for the present id "1" of `sampleClient`
records the reply on that entry and invokes its reply callback (id 1) with the
message. -/
theorem callback_dispatch_spec_witness :
    dictFind sampleClient.nb_requests (String.join ["1"]) = some sampleEntry ∧
    ((sampleClient.nb_replycb { name := "getd", arguments := ["ok", "7"] }
        ["1"]).2.2 = .ok () ∧
     dictFind (sampleClient.nb_replycb { name := "getd", arguments := ["ok", "7"] }
        ["1"]).1.nb_requests (String.join ["1"]) =
       some { sampleEntry with
              reply := some (Message.copy { name := "getd", arguments := ["ok", "7"] }) } ∧
     (∀ k, k ≠ String.join ["1"] →
       dictFind (sampleClient.nb_replycb { name := "getd", arguments := ["ok", "7"] }
          ["1"]).1.nb_requests k = dictFind sampleClient.nb_requests k) ∧
     (sampleClient.nb_replycb { name := "getd", arguments := ["ok", "7"] }
        ["1"]).2.1 =
       (match sampleEntry.reply_cb with
        | some cb => [Event.cbCall cb
            (Message.copy { name := "getd", arguments := ["ok", "7"] })]
        | none => [])) :=
  ⟨by decide,
   ((callback_dispatch_spec sampleClient { name := "getd", arguments := ["ok", "7"] }
      ["1"]).2 sampleEntry (by decide)).1⟩

/-- Pin-map evaluations used by the attenuator routine. -/
theorem pin_atten1 : pinOf kat_pins "atten1_le_pin" = 5 := rfl

theorem pin_atten2 : pinOf kat_pins "atten2_le_pin" = 6 := rfl

theorem pin_atten3 : pinOf kat_pins "atten3_le_pin" = 7 := rfl

theorem pin_clk : pinOf kat_pins "atten_clk_pin" = 3 := rfl

theorem pin_data : pinOf kat_pins "atten_data_pin" = 4 := rfl

/-- Evaluation of a `setd` call with constant state 0. -/
theorem setd_zero (p : Int) : setd p (PyVal.int 0) = .ok [("setd", [p, 0])] := rfl

/-- Evaluation of a `setd` call with constant state 1. -/
theorem setd_one (p : Int) : setd p (PyVal.int 1) = .ok [("setd", [p, 1])] := rfl

/-- Each serialized data bit is 0 or 1. -/
theorem bit_val_zero_or_one (n k : Nat) :
    (n >>> k) &&& 1 = 0 ∨ (n >>> k) &&& 1 = 1 := by
  have h : (n >>> k) &&& 1 = (n >>> k) % 2 := Nat.and_one_is_mod (n >>> k)
  omega

/-- Evaluation of a `setd` call whose state is an extracted bit. -/
theorem setd_bit (p : Int) (n k : Nat) :
    setd p (PyVal.int (Int.ofNat ((n >>> k) &&& 1))) =
      .ok [("setd", [p, Int.ofNat ((n >>> k) &&& 1)])] := by
  rcases bit_val_zero_or_one n k with h | h <;>
    simp [setd, PyVal.pyEqInt, PyVal.toInt, h]

/-- Reading the six emitted bits back MSB-first reconstructs any value below 64. -/
theorem msb_fold_six (n : Nat) (h : n < 64) :
    List.foldl (fun a b => 2 * a + b) 0
      (([5, 4, 3, 2, 1, 0] : List Nat).map (fun bit => (n >>> bit) &&& 1)) = n := by
  simp only [List.map_cons, List.map_nil, List.foldl_cons, List.foldl_nil,
    Nat.and_one_is_mod, Nat.shiftRight_eq_div_pow]
  have e5 : (2 : Nat) ^ 5 = 32 := by norm_num
  have e4 : (2 : Nat) ^ 4 = 16 := by norm_num
  have e3 : (2 : Nat) ^ 3 = 8 := by norm_num
  have e2 : (2 : Nat) ^ 2 = 4 := by norm_num
  have e1 : (2 : Nat) ^ 1 = 2 := by norm_num
  have e0 : (2 : Nat) ^ 0 = 1 := by norm_num
  rw [e5, e4, e3, e2, e1, e0]
  omega

/-- C7: for `db ∈ [0,32)` and `atten ∈ {0,1,2,3}`, `set_atten_db` first drives
the three latch-enable pins (5, 6, 7) and the clock pin (3) low, then emits
`db*2` as six bits MSB-first on the data pin (4), pulsing the clock high then
low after each bit, and finally asserts latch pin 5/6/7 alone for attenuator
1/2/3 while attenuator 0 asserts all three; reading the six emitted data bits
back MSB-first yields exactly `db*2`. -/
theorem set_atten_db_spec (atten db : Nat) (hdb : db < 32) (hat : atten < 4) :
    set_atten_db atten db = .ok ((
      [("setd", [5, 0]), ("setd", [6, 0]), ("setd", [7, 0]), ("setd", [3, 0])] ++
      (([5, 4, 3, 2, 1, 0] : List Nat).flatMap (fun bit =>
        [("setd", [4, Int.ofNat (((db * 2) >>> bit) &&& 1)]),
         ("setd", [3, 1]), ("setd", [3, 0])])) ++
      (if atten = 0 then [("setd", [5, 1]), ("setd", [6, 1]), ("setd", [7, 1])]
       else if atten = 1 then [("setd", [5, 1])]
       else if atten = 2 then [("setd", [6, 1])]
       else [("setd", [7, 1])]) : List DeviceReq)) ∧
    List.foldl (fun a b => 2 * a + b) 0
      (([5, 4, 3, 2, 1, 0] : List Nat).map (fun bit => ((db * 2) >>> bit) &&& 1)) =
      db * 2 := by
  constructor
  · simp only [set_atten_db, if_pos hdb, if_pos hat]
    interval_cases atten <;>
      simp only [atten_bit_program, pin_atten1, pin_atten2, pin_atten3, pin_clk,
        pin_data, List.flatMap_cons, List.flatMap_nil, List.cons_append,
        List.nil_append, List.append_nil, runSetds, setd_bit, setd_zero, setd_one,
        reduceIte, List.append_assoc] <;> rfl
  · exact msb_fold_six (db * 2) (by omega)

/-- Witness for C7: the spec example `setAttenuatorDb(1, 31)` — latch-low on
pins 5, 6, 7 and clock 3, six clock pulses encoding 62 MSB-first on data
pin 4, then latch pin 5 (attenuator 1) alone asserted. -/
theorem set_atten_db_spec_witness :
    (31 : Nat) < 32 ∧ (1 : Nat) < 4 ∧
    (set_atten_db 1 31 = .ok ((
      ([("setd", [5, 0]), ("setd", [6, 0]), ("setd", [7, 0]),
        ("setd", [3, 0])] : List DeviceReq) ++
      (([5, 4, 3, 2, 1, 0] : List Nat).flatMap (fun bit =>
        [("setd", [4, Int.ofNat (((31 * 2) >>> bit) &&& 1)]),
         ("setd", [3, 1]), ("setd", [3, 0])])) ++
      (if (1 : Nat) = 0 then [("setd", [5, 1]), ("setd", [6, 1]), ("setd", [7, 1])]
       else if (1 : Nat) = 1 then [("setd", [5, 1])]
       else if (1 : Nat) = 2 then [("setd", [6, 1])]
       else [("setd", [7, 1])]) : List DeviceReq)) ∧
     List.foldl (fun a b => 2 * a + b) 0
       (([5, 4, 3, 2, 1, 0] : List Nat).map (fun bit => ((31 * 2) >>> bit) &&& 1)) =
       31 * 2) :=
  ⟨by decide, by decide, set_atten_db_spec 1 31 (by decide) (by decide)⟩

/-- Ids "1".."10" are pairwise distinct. -/
theorem idsUpTo_nodup_ten : (idsUpTo 10).Nodup := by decide

/-- Appending the next id. -/
theorem idsUpTo_succ (j : Nat) : idsUpTo (j + 1) = idsUpTo j ++ [toString (j + 1)] := by
  simp [idsUpTo, List.range_succ]

/-- Monotonicity of the id lists. -/
theorem idsUpTo_sublist {a b : Nat} (h : a ≤ b) : (idsUpTo a).Sublist (idsUpTo b) := by
  obtain ⟨k, rfl⟩ := Nat.exists_eq_add_of_le h
  rw [idsUpTo, idsUpTo, List.range_add, List.map_append]
  exact List.sublist_append_left _ _

/-- The freshly generated id "j+1" is not among the ids "1".."j" (for the
table sizes reachable below capacity). -/
theorem fresh_id_not_mem {j : Nat} (h : j + 1 ≤ 10) : toString (j + 1) ∉ idsUpTo j := by
  have h1 : (idsUpTo (j + 1)).Nodup :=
    List.Nodup.sublist (idsUpTo_sublist h) idsUpTo_nodup_ten
  rw [idsUpTo_succ] at h1
  intro hm
  rcases List.nodup_append.mp h1 with ⟨-, -, hdisj⟩
  exact hdisj hm (List.mem_singleton_self _)

/-- Invariant of submit sequences: from a state whose counter is `j` and whose
table keys are exactly "1".."j", any further `10 - j` or fewer submits all
succeed (no eviction, no duplicate-id error), return the ids "j+1", "j+2", ...
in order, and leave the counter at `j + len` and the keys at "1".."j+len". -/
theorem submitSeq_spec (calls : List SubmitCall) :
    ∀ c : SerialClient, ∀ j : Nat,
      c.nb_request_id = j →
      c.nb_requests.map Prod.fst = idsUpTo j →
      c.nb_max_requests = 10 →
      j + calls.length ≤ 10 →
      ∃ handles c1 evs,
        submitSeq c calls = .ok (handles, c1, evs) ∧
        handles.map RequestHandle.id =
          (List.range calls.length).map (fun i => toString (j + i + 1)) ∧
        c1.nb_request_id = j + calls.length ∧
        c1.nb_requests.map Prod.fst = idsUpTo (j + calls.length) ∧
        c1.nb_max_requests = 10 := by
  induction calls with
  | nil =>
    intro c j h1 h2 h3 h4
    exact ⟨[], c, [], rfl, by simp, by simpa using h1, by simpa using h2, h3⟩
  | cons call rest ih =>
    intro c j h1 h2 h3 h4
    have hlen : c.nb_requests.length = j := by
      have h5 := congrArg List.length h2
      simpa [idsUpTo] using h5
    have hj : j + (rest.length + 1) ≤ 10 := by
      simpa using h4
    have hne : ¬c.nb_requests.length = c.nb_max_requests := by
      rw [hlen, h3]
      omega
    have hid : toString (j + 1) ∉ c.nb_requests.map Prod.fst := by
      rw [h2]
      exact fresh_id_not_mem (by omega)
    have hstep : c.nb_request call.request call.inform_cb call.reply_cb
        call.args call.now =
        .ok ({ host := c.host, request := call.request, id := toString (j + 1) },
             ({ c with
                nb_request_id := j + 1,
                nb_requests := c.nb_requests ++
                  [(toString (j + 1),
                    { host := c.host, request := call.request,
                      request_id := toString (j + 1), inform_cb := call.inform_cb,
                      reply_cb := call.reply_cb, time_tx := call.now,
                      reply := none, informs := [] })] } : SerialClient),
             [Event.sendReq (Message.request call.request call.args)
               (toString (j + 1))]) := by
      simp only [SerialClient.nb_request, if_neg hne,
        SerialClient.nb_get_next_request_id, SerialClient.nb_add_request, h1]
      rw [if_neg hid]
      simp
    have hkeys : ({ c with
        nb_request_id := j + 1,
        nb_requests := c.nb_requests ++
          [(toString (j + 1),
            { host := c.host, request := call.request,
              request_id := toString (j + 1), inform_cb := call.inform_cb,
              reply_cb := call.reply_cb, time_tx := call.now,
              reply := none, informs := [] })] } :
          SerialClient).nb_requests.map Prod.fst = idsUpTo (j + 1) := by
      simp [h2, idsUpTo_succ]
    obtain ⟨hs, c2, evs1, hseq, hids, hctr, hkeys2, hmax2⟩ :=
      ih _ (j + 1) rfl hkeys h3 (by omega)
    refine ⟨{ host := c.host, request := call.request, id := toString (j + 1) } :: hs,
      c2,
      [Event.sendReq (Message.request call.request call.args) (toString (j + 1))] ++
        evs1, ?_, ?_, ?_, ?_, hmax2⟩
    · simp only [submitSeq, hstep, hseq]
    · simp only [List.map_cons, hids, List.length_cons]
      rw [List.range_succ_eq_map, List.map_cons, List.map_map]
      congr 1
      apply List.map_congr_left
      intro i hi
      simp only [Function.comp_apply]
      congr 1
      omega
    · rw [hctr]
      simp only [List.length_cons]
      omega
    · rw [hkeys2]
      congr 1
      simp only [List.length_cons]
      omega

/-- Popping a present key shortens the dict by exactly one binding. -/
theorem dictPop_length {d : List (String × FpgaAsyncRequest)} {k : String}
    {v : FpgaAsyncRequest} (h : (dictPop d k).1 = some v) :
    (dictPop d k).2.length + 1 = d.length := by
  induction d with
  | nil => simp [dictPop] at h
  | cons kv rest ih =>
    by_cases hk : kv.1 = k
    · simp [dictPop, hk]
    · simp only [dictPop, if_neg hk] at h ⊢
      simpa using ih h

/-- C1: submitting through `_nb_request` while the table holds exactly
N = 10 entries first evicts an entry with the minimal submit time — reported
through the eviction log event, not as a raised error — then generates the
fresh id `str(counter+1)`, sends the request tagged with that id as the
correlation user-data, stores the new entry under the id, and returns the
handle `{host, request, id}`.  Afterwards the new id is present, the evicted
id is gone, and the table again holds 10 entries. -/
theorem nb_request_at_capacity (c : SerialClient) (request : String)
    (inform_cb reply_cb : Option Nat) (args : List String) (now : Nat)
    (hwf : c.WFtable) (hmax : c.nb_max_requests = 10)
    (hlen : c.nb_requests.length = 10)
    (hfresh : toString (c.nb_request_id + 1) ∉ c.nb_requests.map Prod.fst) :
    ∃ old c3,
      old ∈ c.nb_requests.map Prod.snd ∧
      (∀ v ∈ c.nb_requests.map Prod.snd, old.time_tx ≤ v.time_tx) ∧
      c.nb_request request inform_cb reply_cb args now =
        .ok ({ host := c.host, request := request,
               id := toString (c.nb_request_id + 1) }, c3,
             [Event.logInfo old.request old.request_id,
              Event.sendReq (Message.request request args)
                (toString (c.nb_request_id + 1))]) ∧
      dictFind c3.nb_requests (toString (c.nb_request_id + 1)) =
        some { host := c.host, request := request,
               request_id := toString (c.nb_request_id + 1),
               inform_cb := inform_cb, reply_cb := reply_cb, time_tx := now,
               reply := none, informs := [] } ∧
      dictFind c3.nb_requests old.request_id = none ∧
      c3.nb_requests.length = 10 := by
  have hne0 : c.nb_requests ≠ [] := by
    intro h0
    rw [h0] at hlen
    simp at hlen
  obtain ⟨kv, tl, hd⟩ := List.exists_cons_of_ne_nil hne0
  have hkv : kv ∈ c.nb_requests := by
    rw [hd]
    exact List.mem_cons_self kv tl
  have hmem : scanOldest kv.2 (kv :: tl) ∈ c.nb_requests.map Prod.snd := by
    rcases scanOldest_mem kv.2 (kv :: tl) with h | h
    · rw [h]
      exact List.mem_map_of_mem Prod.snd hkv
    · rw [hd]
      exact h
  obtain ⟨p, hp, hpe⟩ := List.mem_map.mp hmem
  have hpid : (scanOldest kv.2 (kv :: tl)).request_id = p.1 := by
    rw [← hpe]
    exact hwf.2 p hp
  have hpair : (p.1, scanOldest kv.2 (kv :: tl)) ∈ c.nb_requests := by
    rw [← hpe]
    simpa using hp
  have hfind : dictFind c.nb_requests (scanOldest kv.2 (kv :: tl)).request_id =
      some (scanOldest kv.2 (kv :: tl)) := by
    rw [hpid]
    exact dictFind_of_mem hwf.1 hpair
  have hpop1 : (dictPop c.nb_requests (scanOldest kv.2 (kv :: tl)).request_id).1 =
      some (scanOldest kv.2 (kv :: tl)) := by
    rw [dictPop_fst, hfind]
  have hpop : c.nb_pop_oldest_request =
      .ok (some (scanOldest kv.2 (kv :: tl)),
        ({ c with nb_requests :=
            (dictPop c.nb_requests
              (scanOldest kv.2 (kv :: tl)).request_id).2 } : SerialClient)) := by
    rw [nb_pop_oldest_request_eq c kv tl hd]
    simp only [SerialClient.nb_pop_request_by_id, hpop1]
  have hsub : ((dictPop c.nb_requests
      (scanOldest kv.2 (kv :: tl)).request_id).2.map Prod.fst).Sublist
      (c.nb_requests.map Prod.fst) :=
    List.Sublist.map Prod.fst (dictPop_sublist _ _)
  have hfresh1 : toString (c.nb_request_id + 1) ∉
      (dictPop c.nb_requests (scanOldest kv.2 (kv :: tl)).request_id).2.map
        Prod.fst :=
    fun hm => hfresh (hsub.subset hm)
  have hridne : (scanOldest kv.2 (kv :: tl)).request_id ≠
      toString (c.nb_request_id + 1) := by
    intro he
    apply hfresh
    rw [← he, hpid]
    exact List.mem_map_of_mem Prod.fst hp
  have hmain : c.nb_request request inform_cb reply_cb args now =
      .ok ({ host := c.host, request := request,
             id := toString (c.nb_request_id + 1) },
           ({ c with
              nb_request_id := c.nb_request_id + 1,
              nb_requests :=
                (dictPop c.nb_requests
                  (scanOldest kv.2 (kv :: tl)).request_id).2 ++
                [(toString (c.nb_request_id + 1),
                  { host := c.host, request := request,
                    request_id := toString (c.nb_request_id + 1),
                    inform_cb := inform_cb, reply_cb := reply_cb,
                    time_tx := now, reply := none, informs := [] })] } :
             SerialClient),
           [Event.logInfo (scanOldest kv.2 (kv :: tl)).request
              (scanOldest kv.2 (kv :: tl)).request_id,
            Event.sendReq (Message.request request args)
              (toString (c.nb_request_id + 1))]) := by
    simp only [SerialClient.nb_request, hlen, hmax, reduceIte, hpop,
      SerialClient.nb_get_next_request_id, SerialClient.nb_add_request]
    rw [if_neg hfresh1]
    simp
  refine ⟨scanOldest kv.2 (kv :: tl), _, hmem, ?_, hmain, ?_, ?_, ?_⟩
  · intro v hv
    rw [hd] at hv
    exact scanOldest_le kv.2 (kv :: tl) v hv
  · rw [dictFind_append]
    rw [(dictFind_eq_none_iff _ _).mpr hfresh1]
    simp [dictFind]
  · rw [dictFind_append]
    rw [dictPop_find_self c.nb_requests _ hwf.1]
    simp [dictFind, Ne.symm hridne]
  · have h9 := dictPop_length hpop1
    simp only [List.length_append, List.length_cons, List.length_nil]
    omega

/-- Witness for C1: submitting an 11th request against `fullClient` (ten
entries, ids "1".."10", oldest submit time 0 on id "1"). -/
theorem nb_request_at_capacity_witness :
    fullClient.WFtable ∧ fullClient.nb_max_requests = 10 ∧
    fullClient.nb_requests.length = 10 ∧
    toString (fullClient.nb_request_id + 1) ∉
      fullClient.nb_requests.map Prod.fst ∧
    (∃ old c3,
      old ∈ fullClient.nb_requests.map Prod.snd ∧
      (∀ v ∈ fullClient.nb_requests.map Prod.snd, old.time_tx ≤ v.time_tx) ∧
      fullClient.nb_request "watchdog" none none [] 99 =
        .ok ({ host := fullClient.host, request := "watchdog",
               id := toString (fullClient.nb_request_id + 1) }, c3,
             [Event.logInfo old.request old.request_id,
              Event.sendReq (Message.request "watchdog" [])
                (toString (fullClient.nb_request_id + 1))]) ∧
      dictFind c3.nb_requests (toString (fullClient.nb_request_id + 1)) =
        some { host := fullClient.host, request := "watchdog",
               request_id := toString (fullClient.nb_request_id + 1),
               inform_cb := none, reply_cb := none, time_tx := 99,
               reply := none, informs := [] } ∧
      dictFind c3.nb_requests old.request_id = none ∧
      c3.nb_requests.length = 10) :=
  ⟨⟨by decide, by decide⟩, rfl, by decide, by decide,
   nb_request_at_capacity fullClient "watchdog" none none [] 99
     ⟨by decide, by decide⟩ rfl (by decide) (by decide)⟩

/-- C5: `_nb_get_next_request_id` increments the never-reset counter by exactly
one and returns its value stringified (so successive calls return a strictly
increasing counter as a string); consequently every sequence of at most N = 10
`_nb_request` calls from a fresh client succeeds — `_nb_add_request` never
raises its duplicate-id `RuntimeError` — and the returned request ids
"1", "2", ... are pairwise distinct. -/
theorem next_request_id_unique (host : String) (calls : List SubmitCall)
    (hlen : calls.length ≤ 10) :
    (∀ c : SerialClient,
      c.nb_get_next_request_id.2.nb_request_id = c.nb_request_id + 1 ∧
      c.nb_get_next_request_id.1 = toString (c.nb_request_id + 1)) ∧
    ∃ handles c1 evs,
      submitSeq (mkSerialClient host) calls = .ok (handles, c1, evs) ∧
      handles.map RequestHandle.id = idsUpTo calls.length ∧
      (handles.map RequestHandle.id).Nodup := by
  constructor
  · intro c
    exact ⟨rfl, rfl⟩
  · obtain ⟨handles, c1, evs, hseq, hids, -, -, -⟩ :=
      submitSeq_spec calls (mkSerialClient host) 0 rfl rfl rfl (by simpa using hlen)
    have hI : handles.map RequestHandle.id = idsUpTo calls.length := by
      rw [hids, idsUpTo]
      apply List.map_congr_left
      intro i hi
      congr 1
      omega
    exact ⟨handles, c1, evs, hseq, hI,
      hI ▸ List.Nodup.sublist (idsUpTo_sublist hlen) idsUpTo_nodup_ten⟩

/-- Witness for C5: one submit from a fresh client returns id "1". -/
theorem next_request_id_unique_witness :
    ([{ request := "watchdog", inform_cb := none, reply_cb := none,
        args := [], now := 0 }] : List SubmitCall).length ≤ 10 ∧
    ((∀ c : SerialClient,
      c.nb_get_next_request_id.2.nb_request_id = c.nb_request_id + 1 ∧
      c.nb_get_next_request_id.1 = toString (c.nb_request_id + 1)) ∧
    ∃ handles c1 evs,
      submitSeq (mkSerialClient "h")
        [{ request := "watchdog", inform_cb := none, reply_cb := none,
           args := [], now := 0 }] = .ok (handles, c1, evs) ∧
      handles.map RequestHandle.id =
        idsUpTo ([{ request := "watchdog", inform_cb := none, reply_cb := none,
                    args := [], now := 0 }] : List SubmitCall).length ∧
      (handles.map RequestHandle.id).Nodup) :=
  ⟨by decide,
   next_request_id_unique "h"
     [{ request := "watchdog", inform_cb := none, reply_cb := none,
        args := [], now := 0 }] (by decide)⟩

end Corr
